import Mathlib

/-!
Verification of the astrogematria scoring engine (`astrogematria.py`).

The Python source is shallowly embedded here:
* Python `float` arithmetic is modelled by exact rational arithmetic (`ℚ`);
  Python's `%` on numbers (sign of the divisor, i.e. floored modulo) is
  modelled by `qmod` on `ℚ` and by `Int.emod` (`%`) on `ℤ`, which agree with
  Python for a positive modulus.
* Python `round(x, n)` (round-half-to-even) is modelled by `pyround`.
* Python dicts are modelled by association lists in the source's insertion
  order, with `busca` playing the role of `dict.get` / `dict.__getitem__`.
* `unicodedata.normalize('NFKD', ·)` is modelled per character by `nfkd`,
  a table holding the canonical decompositions of the Latin-1 accented
  letters (identity elsewhere), and `unicodedata.combining` by `combining`,
  which recognises the combining marks produced by that table.  A combining
  mark outside the table is instead removed by the final `[^A-Z0-9ÑÇ]`
  filter, so the end-to-end normalizer is unaffected by this restriction.
* `str.upper` is modelled per character by `pyUpper` (ASCII letters and the
  Latin-1 letters; characters whose uppercase form is not a single
  character are outside the model).
-/

/-- Association-list lookup, first match wins: models Python `dict` lookup
(`d[k]` / `d.get(k, default)` via `Option.getD`). -/
def busca {α β : Type} [DecidableEq α] (a : α) : List (α × β) → Option β
  | [] => none
  | p :: ps => if p.1 = a then some p.2 else busca a ps

/-- `VALORES_ASTROGEMATRIA`: the per-character gematria cipher table. -/
def VALORES_ASTROGEMATRIA : List (Char × ℕ) :=
  [('A', 1), ('B', 2), ('C', 20), ('D', 4), ('E', 5), ('F', 80), ('G', 3), ('H', 8), ('I', 10),
   ('J', 10), ('K', 20), ('L', 30), ('M', 40), ('N', 50), ('Ñ', 50), ('O', 70), ('P', 80),
   ('Q', 100), ('R', 200), ('S', 300), ('T', 400), ('U', 6), ('V', 6), ('W', 6), ('X', 60),
   ('Y', 10), ('Z', 7), ('Ç', 20)]

/-- Canonical (NFKD) decompositions of the Latin-1 accented letters:
base letter followed by the combining mark. -/
def NFKD_TABLE : List (Char × List Char) :=
  [('á', ['a', '́']), ('é', ['e', '́']), ('í', ['i', '́']),
   ('ó', ['o', '́']), ('ú', ['u', '́']),
   ('Á', ['A', '́']), ('É', ['E', '́']), ('Í', ['I', '́']),
   ('Ó', ['O', '́']), ('Ú', ['U', '́']),
   ('à', ['a', '̀']), ('è', ['e', '̀']), ('ì', ['i', '̀']),
   ('ò', ['o', '̀']), ('ù', ['u', '̀']),
   ('À', ['A', '̀']), ('È', ['E', '̀']), ('Ì', ['I', '̀']),
   ('Ò', ['O', '̀']), ('Ù', ['U', '̀']),
   ('â', ['a', '̂']), ('ê', ['e', '̂']), ('î', ['i', '̂']),
   ('ô', ['o', '̂']), ('û', ['u', '̂']),
   ('Â', ['A', '̂']), ('Ê', ['E', '̂']), ('Î', ['I', '̂']),
   ('Ô', ['O', '̂']), ('Û', ['U', '̂']),
   ('ä', ['a', '̈']), ('ë', ['e', '̈']), ('ï', ['i', '̈']),
   ('ö', ['o', '̈']), ('ü', ['u', '̈']),
   ('Ä', ['A', '̈']), ('Ë', ['E', '̈']), ('Ï', ['I', '̈']),
   ('Ö', ['O', '̈']), ('Ü', ['U', '̈']),
   ('ã', ['a', '̃']), ('õ', ['o', '̃']),
   ('Ã', ['A', '̃']), ('Õ', ['O', '̃']),
   ('ñ', ['n', '̃']), ('Ñ', ['N', '̃']),
   ('ç', ['c', '̧']), ('Ç', ['C', '̧'])]

/-- Per-character NFKD: table decomposition, identity off the table. -/
def nfkd (c : Char) : List Char := (busca c NFKD_TABLE).getD [c]

/-- The combining marks produced by `NFKD_TABLE`
(`unicodedata.combining(ch) != 0` on them). -/
def COMBINING_MARKS : List Char := ['̀', '́', '̂', '̃', '̈', '̧']

/-- Models `unicodedata.combining(ch) != 0` on the marks the embedding emits. -/
def combining (c : Char) : Bool := decide (c ∈ COMBINING_MARKS)

/-- Per-character uppercase table for `str.upper`: ASCII lowercase and the
Latin-1 accented lowercase letters. -/
def UPPER_TABLE : List (Char × Char) :=
  [('a', 'A'), ('b', 'B'), ('c', 'C'), ('d', 'D'), ('e', 'E'), ('f', 'F'), ('g', 'G'),
   ('h', 'H'), ('i', 'I'), ('j', 'J'), ('k', 'K'), ('l', 'L'), ('m', 'M'), ('n', 'N'),
   ('o', 'O'), ('p', 'P'), ('q', 'Q'), ('r', 'R'), ('s', 'S'), ('t', 'T'), ('u', 'U'),
   ('v', 'V'), ('w', 'W'), ('x', 'X'), ('y', 'Y'), ('z', 'Z'),
   ('á', 'Á'), ('é', 'É'), ('í', 'Í'), ('ó', 'Ó'), ('ú', 'Ú'),
   ('à', 'À'), ('è', 'È'), ('ì', 'Ì'), ('ò', 'Ò'), ('ù', 'Ù'),
   ('â', 'Â'), ('ê', 'Ê'), ('î', 'Î'), ('ô', 'Ô'), ('û', 'Û'),
   ('ä', 'Ä'), ('ë', 'Ë'), ('ï', 'Ï'), ('ö', 'Ö'), ('ü', 'Ü'),
   ('ã', 'Ã'), ('õ', 'Õ'), ('ñ', 'Ñ'), ('ç', 'Ç')]

/-- Models `str.upper` character by character. -/
def pyUpper (c : Char) : Char := (busca c UPPER_TABLE).getD c

/-- `s.replace('ñ', 'Ñ').replace('ç', 'Ç')`, character by character. -/
def repl_nc (c : Char) : Char := if c = 'ñ' then 'Ñ' else if c = 'ç' then 'Ç' else c

/-- The character class kept by `re.sub(r'[^A-Z0-9ÑÇ]', '', s)`. -/
def allowed (c : Char) : Bool :=
  decide (('A' ≤ c ∧ c ≤ 'Z') ∨ ('0' ≤ c ∧ c ≤ '9') ∨ c = 'Ñ' ∨ c = 'Ç')

/-- Concatenation-map over a list (the string-level effect of mapping a
character to its decomposition). -/
def concatMapC (f : Char → List Char) : List Char → List Char
  | [] => []
  | c :: l => f c ++ concatMapC f l

/-- `normaliza_termino`: replace ñ/ç, NFKD-decompose and drop combining
marks, uppercase, keep only `[A-Z0-9ÑÇ]`. -/
def normaliza_termino (s : String) : String :=
  String.mk ((((concatMapC nfkd (s.data.map repl_nc)).filter
      (fun c => !combining c)).map pyUpper).filter allowed)

/-- `valor_astrogematrico`: sum of the cipher table over the term,
unmapped characters contributing 0. -/
def valor_astrogematrico (termino : String) : ℕ :=
  (termino.data.map (fun ch => (busca ch VALORES_ASTROGEMATRIA).getD 0)).sum

/-- `grado_astrogematrico`: the inverted-modulo degree convention
`(360 - (val % 360)) % 360` (the Python value is the same integer as a float). -/
def grado_astrogematrico (val : ℤ) : ℚ := ((360 - val % 360) % 360 : ℤ)

/-- Floored modulo on `ℚ`: models Python's `%` on floats
(result has the sign of the divisor). -/
def qmod (a b : ℚ) : ℚ := a - b * ⌊a / b⌋

/-- `dist_angular`: minimal angular separation on the circle, in `[0, 180]`. -/
def dist_angular (a b : ℚ) : ℚ := |qmod (a - b + 540) 360 - 180|

/-- `atenuado_por_orbe`: linear orb attenuation, `0` beyond the orb. -/
def atenuado_por_orbe (delta orbe : ℚ) : ℚ :=
  if orbe < delta then 0 else 1 - delta / orbe

/-- One aspect-kind configuration (`{'angulo': …, 'orbe': …, 'peso': …}`). -/
structure Asp where
  angulo : ℚ
  orbe : ℚ
  peso : ℚ
deriving DecidableEq

/-- `ASPECTOS`, in the dict's insertion order. -/
def ASPECTOS : List (String × Asp) :=
  [("conjuncion", ⟨0, 3, 4⟩), ("oposicion", ⟨180, 3, -2⟩), ("trigono", ⟨120, 3, 2⟩),
   ("cuadratura", ⟨90, 3, -2⟩), ("sextil", ⟨60, 2, 1⟩)]

/-- One iteration of `mejor_aspecto`'s loop body. -/
def paso (d0 : ℚ) (best : String × ℚ × ℚ) (e : String × Asp) : String × ℚ × ℚ :=
  if |d0 - e.2.angulo| ≤ e.2.orbe then
    (if |e.2.peso * atenuado_por_orbe |d0 - e.2.angulo| e.2.orbe| > |best.2.2| then
      (e.1, |d0 - e.2.angulo|, e.2.peso * atenuado_por_orbe |d0 - e.2.angulo| e.2.orbe)
    else best)
  else best

/-- `mejor_aspecto`: strongest aspect (by attenuated `|peso|`) between two
positions; `('', 999, 0)` when nothing is selected. -/
def mejor_aspecto (p_alfa p_beta : ℚ) : String × ℚ × ℚ :=
  ASPECTOS.foldl (paso (dist_angular p_alfa p_beta)) ("", 999, 0)

/-- `lon_to_sign`: `int((lon % 360) // 30)`. -/
def lon_to_sign (lon : ℚ) : ℤ := ⌊qmod lon 360 / 30⌋

/-- `PESO_PLANETA` (body weights; `dict.get(cuerpo, 1.0)` via `peso_planeta`). -/
def PESO_PLANETA : List (String × ℚ) :=
  [("Sun", 1), ("Moon", 9/10), ("Mercury", 7/10), ("Venus", 1), ("Mars", 11/10),
   ("Jupiter", 1), ("Saturn", 23/20), ("Uranus", 1), ("Neptune", 1), ("Pluto", 1)]

/-- `PESO_PLANETA.get(cuerpo, 1.0)`. -/
def peso_planeta (cuerpo : String) : ℚ := (busca cuerpo PESO_PLANETA).getD 1

/-- `ANGULOS`: the four chart angles. -/
def ANGULOS : List String := ["Asc", "MC", "Desc", "IC"]

/-- `REGENTES_CLASICOS.get(asc_sign, [])`: classical rulers by sign index. -/
def regentes_clasicos (i : ℤ) : List String :=
  if i = 0 then ["Mars"] else if i = 1 then ["Venus"] else if i = 2 then ["Mercury"]
  else if i = 3 then ["Moon"] else if i = 4 then ["Sun"] else if i = 5 then ["Mercury"]
  else if i = 6 then ["Venus"] else if i = 7 then ["Mars"] else if i = 8 then ["Jupiter"]
  else if i = 9 then ["Saturn"] else if i = 10 then ["Saturn"] else if i = 11 then ["Jupiter"]
  else []

/-- `RULER_MULT`. -/
def RULER_MULT : ℚ := 27/20

/-- `SIGNOS`. -/
def SIGNOS : List String :=
  ["Aries", "Tauro", "Géminis", "Cáncer", "Leo", "Virgo",
   "Libra", "Escorpio", "Sagitario", "Capricornio", "Acuario", "Piscis"]

/-- `IMPACT_WEIGHTS[nombre]` (only ever queried at the five aspect names). -/
def IMPACT_WEIGHTS : List (String × ℚ) :=
  [("conjuncion", 13/5), ("trigono", 1), ("sextil", 4/5), ("cuadratura", 1), ("oposicion", 6/5)]

/-- Impact weight of a matched aspect name. -/
def impacto_de (nombre : String) : ℚ := (busca nombre IMPACT_WEIGHTS).getD 0

/-- `VALENCE_WEIGHTS[nombre]` (only ever queried at the five aspect names). -/
def VALENCE_WEIGHTS : List (String × ℚ) :=
  [("conjuncion", 2), ("trigono", 6/5), ("sextil", 4/5), ("cuadratura", 1), ("oposicion", 6/5)]

/-- Valence weight of a matched aspect name. -/
def valencia_de (nombre : String) : ℚ := (busca nombre VALENCE_WEIGHTS).getD 0

/-- `ASPECTOS[nombre]['orbe']` (only ever queried at the five aspect names). -/
def orbe_de (nombre : String) : ℚ := ((busca nombre ASPECTOS).getD ⟨0, 0, 0⟩).orbe

/-- `PLANET_VALENCE.get(cuerpo, 0.0)` table. -/
def PLANET_VALENCE : List (String × ℚ) :=
  [("Jupiter", 1), ("Venus", 9/10), ("Sun", 7/10), ("Moon", 3/5), ("Mercury", 1/5),
   ("Mars", -7/10), ("Saturn", -9/10), ("Uranus", -3/10), ("Neptune", -3/10), ("Pluto", -3/5)]

/-- `PLANET_VALENCE.get(cuerpo, 0.0)`. -/
def planet_valence (cuerpo : String) : ℚ := (busca cuerpo PLANET_VALENCE).getD 0

/-- `LUMINARIES`. -/
def LUMINARIES : List String := ["Sun", "Moon"]

/-- `LUM_IMPACT_MULT`. -/
def LUM_IMPACT_MULT : ℚ := 23/20

/-- `ANGLE_IMPACT_MULT`. -/
def ANGLE_IMPACT_MULT : ℚ := 5/4

/-- `QUALITY_SCALE`. -/
def QUALITY_SCALE : ℚ := 3

/-- `clamp(x, lo, hi) = max(lo, min(hi, x))`. -/
def clamp (x lo hi : ℚ) : ℚ := max lo (min hi x)

/-- Round-half-to-even to an integer: models Python `round` on the exact
rational value. -/
def rhe (y : ℚ) : ℤ :=
  if Int.fract y = 1/2 then (if 2 ∣ ⌊y⌋ then ⌊y⌋ else ⌊y⌋ + 1) else ⌊y + 1/2⌋

/-- `round(x, n)` on the exact rational value. -/
def pyround (x : ℚ) (n : ℕ) : ℚ := (rhe (x * 10 ^ n) : ℚ) / 10 ^ n

/-- One entry of the `detalles` hit list. -/
structure Hit where
  cuerpo : String
  es_angulo : Bool
  aspecto : String
  orb : ℚ
  impacto : ℚ
  calidad : ℚ
  lon_cuerpo : ℚ
deriving DecidableEq

/-- Strict comparison on the sort key `(-impacto, -abs(calidad))` used by
`sorted(detalles, key=…)`. -/
def lt_hit (d1 d2 : Hit) : Bool :=
  decide (d2.impacto < d1.impacto ∨ (d1.impacto = d2.impacto ∧ |d2.calidad| < |d1.calidad|))

/-- Stable insertion into a list sorted by `lt_hit`: an element goes after
every element not strictly greater, as Python's stable `sorted` does. -/
def insHit (x : Hit) : List Hit → List Hit
  | [] => [x]
  | y :: ys => if lt_hit x y then x :: y :: ys else y :: insHit x ys

/-- Stable sort of the hit list by `(-impacto, -abs(calidad))`. -/
def ordena_hits : List Hit → List Hit
  | [] => []
  | x :: xs => insHit x (ordena_hits xs)

/-- The mutable state of `evalua_termino_con_carta`'s body loop. -/
structure Estado where
  detalles : List Hit
  import_sum : ℚ
  quality_sum : ℚ
  has_aspect : Bool
  has_conj : Bool
deriving DecidableEq

/-- The Importance multiplier: `ANGLE_IMPACT_MULT` for angles, else body
weight times the ruler and luminary multipliers. -/
def mult_importancia (regentes : List String) (cuerpo : String) : ℚ :=
  if cuerpo ∈ ANGULOS then ANGLE_IMPACT_MULT
  else peso_planeta cuerpo * (if cuerpo ∈ regentes then RULER_MULT else 1) *
    (if cuerpo ∈ LUMINARIES then LUM_IMPACT_MULT else 1)

/-- The signed Quality contribution `q` of a planet (valence weight by
aspect class, ruler multiplier, body weight). -/
def calidad_q (regentes : List String) (cuerpo nombre : String) (orb_factor : ℚ) : ℚ :=
  (if nombre = "conjuncion" then valencia_de nombre * orb_factor * planet_valence cuerpo
   else if nombre = "trigono" ∨ nombre = "sextil" then
     valencia_de nombre * orb_factor * |planet_valence cuerpo|
   else -valencia_de nombre * orb_factor * |planet_valence cuerpo|) *
  (if cuerpo ∈ regentes then RULER_MULT else 1) * peso_planeta cuerpo

/-- One iteration of the body loop of `evalua_termino_con_carta`
(lines 267–325 of the source). -/
def procesa_cuerpo (grado : ℚ) (regentes : List String) (st : Estado) (e : String × ℚ) : Estado :=
  let nombre := (mejor_aspecto grado e.2).1
  let delta := (mejor_aspecto grado e.2).2.1
  if nombre = "" then st
  else
    let hc := st.has_conj || decide (nombre = "conjuncion")
    let orb_factor := atenuado_por_orbe delta (orbe_de nombre)
    if orb_factor ≤ 0 then { st with has_aspect := true, has_conj := hc }
    else
      let es_angulo := decide (e.1 ∈ ANGULOS)
      let imp := impacto_de nombre * orb_factor * mult_importancia regentes e.1
      let q := calidad_q regentes e.1 nombre orb_factor
      { detalles := st.detalles ++
          [⟨e.1, es_angulo, nombre, pyround delta 2, pyround |imp| 3,
            (if es_angulo then 0 else pyround q 3), pyround e.2 2⟩],
        import_sum := st.import_sum + |imp|,
        quality_sum := st.quality_sum + (if es_angulo then 0 else q),
        has_aspect := true,
        has_conj := hc }

/-- The output record of `evalua_termino_con_carta`. -/
structure Resultado where
  termino : String
  valor : ℕ
  grado_ecliptico : ℚ
  signo : String
  grado_en_signo : ℚ
  importancia : ℚ
  etq_importancia : String
  calidad : ℚ
  etq_calidad : String
  regentes_asc : List String
  hits : List Hit
deriving DecidableEq

/-- The loop state before any body is processed. -/
def estado_inicial : Estado := ⟨[], 0, 0, false, false⟩

/-- The whole body loop of `evalua_termino_con_carta`. -/
def recorre_cuerpos (grado : ℚ) (regentes : List String) (posiciones : List (String × ℚ)) :
    Estado :=
  posiciones.foldl (procesa_cuerpo grado regentes) estado_inicial

/-- Post-aggregation Importance: `0` with no aspects, else the sum floored
at `2.1` when a conjunction was found. -/
def importancia_final (fin : Estado) : ℚ :=
  if fin.has_aspect then
    (if fin.has_conj then max fin.import_sum (21/10) else fin.import_sum)
  else 0

/-- Post-aggregation Importance label. -/
def etq_importancia_final (fin : Estado) : String :=
  if fin.has_aspect then
    (if importancia_final fin ≤ 2 then "impacto menor (presente pero discreto)"
     else "impacto IMPORTANTE")
  else "impacto NO importante (sin aspectos)"

/-- Post-aggregation Quality: `0` with no aspects, else the scaled sum
clamped to `[-10, 10]`. -/
def calidad_final (fin : Estado) : ℚ :=
  if fin.has_aspect then clamp (fin.quality_sum * QUALITY_SCALE) (-10) 10 else 0

/-- Post-aggregation Quality label (band checks in source order). -/
def etq_calidad_final (fin : Estado) : String :=
  if fin.has_aspect then
    (if calidad_final fin ≥ 5 then "MUY BENÉFICO"
     else if calidad_final fin ≥ 2 then "BENÉFICO"
     else if calidad_final fin ≤ -5 then "MUY MALÉFICO"
     else if calidad_final fin ≤ -2 then "MALÉFICO"
     else "MIXTO / AMBIVALENTE")
  else "—"

/-- Ecliptic degree of a term: normalize, sum the cipher, invert-mod. -/
def grado_del_termino (term : String) : ℚ :=
  grado_astrogematrico (valor_astrogematrico (normaliza_termino term) : ℤ)

/-- `evalua_termino_con_carta`: normalize the term, map it to a degree,
score every chart body, then label and package the result. -/
def evalua_termino_con_carta (term : String) (posiciones : List (String × ℚ)) : Resultado :=
  let grado := grado_del_termino term
  let regentes := regentes_clasicos (lon_to_sign ((busca "Asc" posiciones).getD 0))
  let fin := recorre_cuerpos grado regentes posiciones
  { termino := normaliza_termino term
    valor := valor_astrogematrico (normaliza_termino term)
    grado_ecliptico := pyround grado 2
    signo := SIGNOS.getD (⌊grado / 30⌋).toNat ""
    grado_en_signo := pyround (qmod grado 30) 2
    importancia := pyround (importancia_final fin) 2
    etq_importancia := etq_importancia_final fin
    calidad := pyround (calidad_final fin) 1
    etq_calidad := etq_calidad_final fin
    regentes_asc := regentes
    hits := (ordena_hits fin.detalles).take 8 }

/-! ### Helper lemmas: association lists -/

theorem busca_eq_none {α β : Type} [DecidableEq α] (a : α) :
    ∀ l : List (α × β), (∀ p ∈ l, p.1 ≠ a) → busca a l = none := by
  intro l
  induction l with
  | nil => intro _; rfl
  | cons p ps ih =>
    intro h
    have hp : p.1 ≠ a := h p (List.mem_cons_self p ps)
    simp only [busca, if_neg hp]
    exact ih fun q hq => h q (List.mem_cons_of_mem p hq)

theorem mem_of_busca {α β : Type} [DecidableEq α] {a : α} {b : β} :
    ∀ {l : List (α × β)}, busca a l = some b → (a, b) ∈ l := by
  intro l
  induction l with
  | nil => intro h; simp [busca] at h
  | cons p ps ih =>
    intro h
    by_cases hp : p.1 = a
    · simp only [busca, if_pos hp, Option.some.injEq] at h
      have hab : (a, b) = p := by rw [← hp, ← h]
      rw [hab]
      exact List.mem_cons_self p ps
    · simp only [busca, if_neg hp] at h
      exact List.mem_cons_of_mem p (ih h)

/-! ### Helper lemmas: floored modulo on `ℚ` -/

theorem qmod_nonneg (a : ℚ) {b : ℚ} (hb : 0 < b) : 0 ≤ qmod a b := by
  have h1 : (⌊a / b⌋ : ℚ) ≤ a / b := Int.floor_le _
  have h2 : (⌊a / b⌋ : ℚ) * b ≤ a := (le_div_iff₀ hb).mp h1
  unfold qmod
  nlinarith

theorem qmod_lt (a : ℚ) {b : ℚ} (hb : 0 < b) : qmod a b < b := by
  have h1 : a / b < (⌊a / b⌋ : ℚ) + 1 := Int.lt_floor_add_one _
  have h2 : a < ((⌊a / b⌋ : ℚ) + 1) * b := (div_lt_iff₀ hb).mp h1
  unfold qmod
  nlinarith

theorem qmod_eq_of {a r b : ℚ} (hb : 0 < b) (h0 : 0 ≤ r) (h1 : r < b) (k : ℤ)
    (hk : a - r = b * k) : qmod a b = r := by
  have hbne : b ≠ 0 := ne_of_gt hb
  have hdiv : a / b = (k : ℚ) + r / b := by
    field_simp
    linarith [hk]
  have hfr : ⌊r / b⌋ = 0 := by
    rw [Int.floor_eq_zero_iff]
    constructor
    · exact div_nonneg h0 hb.le
    · rw [div_lt_one hb]; exact h1
  have hfl : ⌊a / b⌋ = k := by
    rw [hdiv, Int.floor_int_add, hfr, add_zero]
  unfold qmod
  rw [hfl]
  linarith [hk]

/-! ### Helper lemmas: angular distance is symmetric -/

theorem dist_angular_comm (a b : ℚ) : dist_angular a b = dist_angular b a := by
  set m := qmod (a - b + 540) 360 with hm
  have h0 : 0 ≤ m := qmod_nonneg _ (by norm_num)
  have h1 : m < 360 := qmod_lt _ (by norm_num)
  have hk : (a - b + 540) - m = 360 * ⌊(a - b + 540) / 360⌋ := by
    rw [hm]; unfold qmod; ring
  by_cases hz : m = 0
  · have h2 : qmod (b - a + 540) 360 = 0 := by
      apply qmod_eq_of (by norm_num) le_rfl (by norm_num) (3 - ⌊(a - b + 540) / 360⌋)
      push_cast
      rw [hz] at hk
      linarith [hk]
    unfold dist_angular
    rw [← hm, h2, hz]
  · have hpos : 0 < m := lt_of_le_of_ne h0 (Ne.symm hz)
    have h2 : qmod (b - a + 540) 360 = 360 - m := by
      apply qmod_eq_of (by norm_num) (by linarith) (by linarith) (2 - ⌊(a - b + 540) / 360⌋)
      push_cast
      linarith [hk]
    unfold dist_angular
    rw [← hm, h2]
    rw [show (360 : ℚ) - m - 180 = -(m - 180) by ring, abs_neg]

/-! ### Helper lemmas: rounding and clamping -/

theorem rhe_ge {m : ℤ} {y : ℚ} (h : (m : ℚ) ≤ y) : m ≤ rhe y := by
  have hfl : m ≤ ⌊y⌋ := Int.le_floor.mpr h
  unfold rhe
  split_ifs with h1 h2
  · exact hfl
  · omega
  · exact le_trans hfl (Int.floor_le_floor (by linarith))

theorem rhe_le {m : ℤ} {y : ℚ} (h : y ≤ m) : rhe y ≤ m := by
  have hfl : ⌊y⌋ ≤ m := by
    have := Int.floor_le_floor h
    rwa [Int.floor_intCast] at this
  unfold rhe
  split_ifs with h1 h2
  · exact hfl
  · have hy : y = (⌊y⌋ : ℚ) + 1/2 := by
      have := Int.fract_add_floor y
      rw [h1] at this
      linarith [this]
    have hlt : ⌊y⌋ < m := by
      rcases lt_or_eq_of_le hfl with hc | hc
      · exact hc
      · exfalso
        rw [hc] at hy
        rw [hy] at h
        norm_num at h
    omega
  · have : ⌊y + 1/2⌋ ≤ ⌊(m : ℚ) + 1/2⌋ := Int.floor_le_floor (by linarith)
    rwa [show ((m : ℚ) + 1/2) = ((m : ℤ) : ℚ) + 1/2 from rfl, Int.floor_int_add, show ⌊(1/2 : ℚ)⌋ = 0 by norm_num, add_zero] at this

theorem pyround_nonneg {x : ℚ} (n : ℕ) (h : 0 ≤ x) : 0 ≤ pyround x n := by
  unfold pyround
  apply div_nonneg _ (by positivity)
  have : (0 : ℤ) ≤ rhe (x * 10 ^ n) := rhe_ge (by push_cast; positivity)
  exact_mod_cast this

theorem pyround2_ge_floor {x : ℚ} (h : 21/10 ≤ x) : 21/10 ≤ pyround x 2 := by
  have h1 : (210 : ℤ) ≤ rhe (x * 10 ^ 2) := rhe_ge (by push_cast; linarith)
  unfold pyround
  rw [le_div_iff₀ (by norm_num : (0 : ℚ) < 10 ^ 2)]
  calc (21/10 : ℚ) * 10 ^ 2 = 210 := by norm_num
    _ ≤ ((rhe (x * 10 ^ 2) : ℤ) : ℚ) := by exact_mod_cast h1

theorem pyround1_le_ten {x : ℚ} (h : x ≤ 10) : pyround x 1 ≤ 10 := by
  have h1 : rhe (x * 10 ^ 1) ≤ (100 : ℤ) := rhe_le (by push_cast; linarith)
  unfold pyround
  rw [div_le_iff₀ (by norm_num : (0 : ℚ) < 10 ^ 1)]
  calc ((rhe (x * 10 ^ 1) : ℤ) : ℚ) ≤ 100 := by exact_mod_cast h1
    _ = 10 * 10 ^ 1 := by norm_num

theorem pyround1_ge_neg_ten {x : ℚ} (h : -10 ≤ x) : -10 ≤ pyround x 1 := by
  have h1 : (-100 : ℤ) ≤ rhe (x * 10 ^ 1) := rhe_ge (by push_cast; linarith)
  unfold pyround
  rw [le_div_iff₀ (by norm_num : (0 : ℚ) < 10 ^ 1)]
  calc (-10 : ℚ) * 10 ^ 1 = -100 := by norm_num
    _ ≤ ((rhe (x * 10 ^ 1) : ℤ) : ℚ) := by exact_mod_cast h1

theorem clamp_mem {x lo hi : ℚ} (h : lo ≤ hi) : lo ≤ clamp x lo hi ∧ clamp x lo hi ≤ hi := by
  unfold clamp
  constructor
  · exact le_max_left _ _
  · exact max_le h (min_le_left _ _)

/-! ### Helper lemmas: the aspect matcher -/

theorem aspectos_orbe_pos : ∀ p ∈ ASPECTOS, 0 < p.2.orbe := by decide

theorem aspectos_peso_ne : ∀ p ∈ ASPECTOS, p.2.peso ≠ 0 := by decide

theorem aspectos_nombre_ne : ∀ p ∈ ASPECTOS, p.1 ≠ "" := by decide

theorem aspectos_orbe_busca : ∀ p ∈ ASPECTOS, orbe_de p.1 = p.2.orbe := by decide

/-- A non-initial accumulator of `mejor_aspecto`'s loop: it names a table
entry whose delta is strictly inside the orb and carries a nonzero weight. -/
def BuenResultado (d0 : ℚ) (b : String × ℚ × ℚ) : Prop :=
  ∃ p ∈ ASPECTOS, b.1 = p.1 ∧ b.2.1 = |d0 - p.2.angulo| ∧ b.2.1 < p.2.orbe ∧ 0 < |b.2.2|

theorem paso_inv (d0 : ℚ) (b : String × ℚ × ℚ) (e : String × Asp) (he : e ∈ ASPECTOS)
    (hb : b = ("", 999, 0) ∨ BuenResultado d0 b) :
    paso d0 b e = ("", 999, 0) ∨ BuenResultado d0 (paso d0 b e) := by
  unfold paso
  by_cases h1 : |d0 - e.2.angulo| ≤ e.2.orbe
  · simp only [if_pos h1]
    by_cases h2 : |e.2.peso * atenuado_por_orbe |d0 - e.2.angulo| e.2.orbe| > |b.2.2|
    · simp only [if_pos h2]
      right
      refine ⟨e, he, rfl, rfl, ?_, ?_⟩
      · rcases lt_or_eq_of_le h1 with hlt | heq
        · exact hlt
        · exfalso
          have horbe : 0 < e.2.orbe := aspectos_orbe_pos e he
          have hat : atenuado_por_orbe |d0 - e.2.angulo| e.2.orbe = 0 := by
            unfold atenuado_por_orbe
            rw [if_neg (not_lt.mpr h1), heq, div_self (ne_of_gt horbe), sub_self]
          rw [hat, mul_zero, abs_zero] at h2
          exact absurd h2 (not_lt.mpr (abs_nonneg _))
      · exact lt_of_le_of_lt (abs_nonneg _) h2
    · simp only [if_neg h2]
      exact hb
  · simp only [if_neg h1]
    exact hb

theorem paso_mono (d0 : ℚ) (b : String × ℚ × ℚ) (e : String × Asp) :
    |b.2.2| ≤ |(paso d0 b e).2.2| := by
  unfold paso
  split_ifs with h1 h2
  · exact le_of_lt h2
  · exact le_refl _
  · exact le_refl _

theorem foldl_paso_inv (d0 : ℚ) :
    ∀ l : List (String × Asp), (∀ e ∈ l, e ∈ ASPECTOS) →
      ∀ b, (b = ("", 999, 0) ∨ BuenResultado d0 b) →
        (l.foldl (paso d0) b = ("", 999, 0) ∨ BuenResultado d0 (l.foldl (paso d0) b)) := by
  intro l
  induction l with
  | nil => intro _ b hb; exact hb
  | cons e es ih =>
    intro hl b hb
    simp only [List.foldl_cons]
    exact ih (fun x hx => hl x (List.mem_cons_of_mem e hx)) (paso d0 b e)
      (paso_inv d0 b e (hl e (List.mem_cons_self e es)) hb)

theorem foldl_paso_mono (d0 : ℚ) :
    ∀ (l : List (String × Asp)) (b : String × ℚ × ℚ),
      |b.2.2| ≤ |(l.foldl (paso d0) b).2.2| := by
  intro l
  induction l with
  | nil => intro b; exact le_refl _
  | cons e es ih =>
    intro b
    simp only [List.foldl_cons]
    exact le_trans (paso_mono d0 b e) (ih (paso d0 b e))

theorem paso_pos (d0 : ℚ) (b : String × ℚ × ℚ) (e : String × Asp)
    (he : 0 < e.2.orbe) (hp : e.2.peso ≠ 0) (hd : |d0 - e.2.angulo| < e.2.orbe) :
    0 < |(paso d0 b e).2.2| := by
  unfold paso
  have h1 : |d0 - e.2.angulo| ≤ e.2.orbe := le_of_lt hd
  have hat : 0 < atenuado_por_orbe |d0 - e.2.angulo| e.2.orbe := by
    unfold atenuado_por_orbe
    rw [if_neg (not_lt.mpr h1)]
    have : |d0 - e.2.angulo| / e.2.orbe < 1 := (div_lt_one he).mpr hd
    linarith
  have hpos : 0 < |e.2.peso * atenuado_por_orbe |d0 - e.2.angulo| e.2.orbe| := by
    rw [abs_mul]
    exact mul_pos (abs_pos.mpr hp) (abs_pos.mpr (ne_of_gt hat))
  rw [if_pos h1]
  split_ifs with h2
  · exact hpos
  · exact lt_of_lt_of_le hpos (not_lt.mp h2)

theorem foldl_paso_pos (d0 : ℚ) :
    ∀ (l : List (String × Asp)) (b : String × ℚ × ℚ) (e : String × Asp), e ∈ l →
      0 < e.2.orbe → e.2.peso ≠ 0 → |d0 - e.2.angulo| < e.2.orbe →
      0 < |(l.foldl (paso d0) b).2.2| := by
  intro l
  induction l with
  | nil => intro b e he; simp at he
  | cons x xs ih =>
    intro b e he horbe hpeso hd
    simp only [List.foldl_cons]
    rcases List.mem_cons.mp he with rfl | hmem
    · exact lt_of_lt_of_le (paso_pos d0 b e horbe hpeso hd) (foldl_paso_mono d0 xs _)
    · exact ih (paso d0 b x) e hmem horbe hpeso hd

theorem mejor_aspecto_good (a b : ℚ) (h : (mejor_aspecto a b).1 ≠ "") :
    BuenResultado (dist_angular a b) (mejor_aspecto a b) := by
  rcases foldl_paso_inv (dist_angular a b) ASPECTOS (fun e he => he) ("", 999, 0)
    (Or.inl rfl) with hinit | hgood
  · exfalso
    apply h
    rw [mejor_aspecto, hinit]
  · exact hgood

theorem mejor_aspecto_ne_of (a b : ℚ) (p : String × Asp) (hp : p ∈ ASPECTOS)
    (hd : |dist_angular a b - p.2.angulo| < p.2.orbe) : (mejor_aspecto a b).1 ≠ "" := by
  have hpos : 0 < |(mejor_aspecto a b).2.2| :=
    foldl_paso_pos (dist_angular a b) ASPECTOS ("", 999, 0) p hp
      (aspectos_orbe_pos p hp) (aspectos_peso_ne p hp) hd
  rcases foldl_paso_inv (dist_angular a b) ASPECTOS (fun e he => he) ("", 999, 0)
    (Or.inl rfl) with hinit | hgood
  · exfalso
    rw [mejor_aspecto, hinit] at hpos
    simp at hpos
  · rcases hgood with ⟨q, hq, hname, _, _, _⟩
    intro hemp
    rw [mejor_aspecto] at hemp
    rw [hname] at hemp
    exact aspectos_nombre_ne q hq hemp

theorem mejor_aspecto_orb_factor_pos (a b : ℚ) (h : (mejor_aspecto a b).1 ≠ "") :
    0 < atenuado_por_orbe (mejor_aspecto a b).2.1 (orbe_de (mejor_aspecto a b).1) := by
  rcases mejor_aspecto_good a b h with ⟨p, hp, hname, _hdelta, hlt, _⟩
  rw [hname, aspectos_orbe_busca p hp]
  have horbe : 0 < p.2.orbe := aspectos_orbe_pos p hp
  unfold atenuado_por_orbe
  rw [if_neg (not_lt.mpr (le_of_lt hlt))]
  have : (mejor_aspecto a b).2.1 / p.2.orbe < 1 := (div_lt_one horbe).mpr hlt
  linarith

theorem paso_boundary (d0 : ℚ) (p : String × Asp) (hpos : 0 < p.2.orbe)
    (h : p.2.orbe ≤ |d0 - p.2.angulo|) : paso d0 ("", 999, 0) p = ("", 999, 0) := by
  unfold paso
  by_cases h1 : |d0 - p.2.angulo| ≤ p.2.orbe
  · have heq : |d0 - p.2.angulo| = p.2.orbe := le_antisymm h1 h
    have hat : atenuado_por_orbe |d0 - p.2.angulo| p.2.orbe = 0 := by
      unfold atenuado_por_orbe
      rw [if_neg (not_lt.mpr h1), heq, div_self (ne_of_gt hpos), sub_self]
    simp only [if_pos h1, hat, mul_zero, abs_zero]
    rw [if_neg (by norm_num)]
  · simp only [if_neg h1]

theorem mejor_aspecto_empty_of (a b : ℚ)
    (h : ∀ p ∈ ASPECTOS, p.2.orbe ≤ |dist_angular a b - p.2.angulo|) :
    mejor_aspecto a b = ("", 999, 0) := by
  rw [mejor_aspecto]
  have : ∀ l : List (String × Asp), (∀ p ∈ l, p ∈ ASPECTOS) →
      l.foldl (paso (dist_angular a b)) ("", 999, 0) = ("", 999, 0) := by
    intro l
    induction l with
    | nil => intro _; rfl
    | cons x xs ih =>
      intro hl
      have hx : x ∈ ASPECTOS := hl x (List.mem_cons_self x xs)
      simp only [List.foldl_cons,
        paso_boundary (dist_angular a b) x (aspectos_orbe_pos x hx) (h x hx)]
      exact ih fun q hq => hl q (List.mem_cons_of_mem x hq)
  exact this ASPECTOS fun p hp => hp

/-! ### Helper lemmas: the scoring loop -/

theorem procesa_id_of_empty (g : ℚ) (r : List String) (st : Estado) (e : String × ℚ)
    (h : (mejor_aspecto g e.2).1 = "") : procesa_cuerpo g r st e = st := by
  simp only [procesa_cuerpo]
  rw [if_pos h]

theorem procesa_import_nonneg (g : ℚ) (r : List String) (st : Estado) (e : String × ℚ)
    (h : 0 ≤ st.import_sum) : 0 ≤ (procesa_cuerpo g r st e).import_sum := by
  simp only [procesa_cuerpo]
  split_ifs with h1 h2 h3
  · exact h
  · exact h
  · exact add_nonneg h (abs_nonneg _)
  · exact add_nonneg h (abs_nonneg _)

theorem procesa_conj_mono (g : ℚ) (r : List String) (st : Estado) (e : String × ℚ)
    (h : st.has_conj = true) : (procesa_cuerpo g r st e).has_conj = true := by
  simp only [procesa_cuerpo]
  split_ifs with h1 h2 h3
  · exact h
  · simp [h]
  · simp [h]
  · simp [h]

theorem procesa_sets_conj (g : ℚ) (r : List String) (st : Estado) (e : String × ℚ)
    (h : (mejor_aspecto g e.2).1 = "conjuncion") : (procesa_cuerpo g r st e).has_conj = true := by
  simp only [procesa_cuerpo]
  have hne : ¬((mejor_aspecto g e.2).1 = "") := by rw [h]; decide
  rw [if_neg hne]
  split_ifs with h2 h3
  · simp [h]
  · simp [h]
  · simp [h]

theorem procesa_conj_imp_aspect (g : ℚ) (r : List String) (st : Estado) (e : String × ℚ)
    (h : st.has_conj = true → st.has_aspect = true) :
    (procesa_cuerpo g r st e).has_conj = true → (procesa_cuerpo g r st e).has_aspect = true := by
  simp only [procesa_cuerpo]
  split_ifs with h1 h2 h3
  · exact h
  · intro _; rfl
  · intro _; rfl
  · intro _; rfl

theorem foldl_procesa_import_nonneg (g : ℚ) (r : List String) :
    ∀ (l : List (String × ℚ)) (st : Estado), 0 ≤ st.import_sum →
      0 ≤ (l.foldl (procesa_cuerpo g r) st).import_sum := by
  intro l
  induction l with
  | nil => intro st h; exact h
  | cons e es ih =>
    intro st h
    simp only [List.foldl_cons]
    exact ih _ (procesa_import_nonneg g r st e h)

theorem foldl_procesa_conj_mono (g : ℚ) (r : List String) :
    ∀ (l : List (String × ℚ)) (st : Estado), st.has_conj = true →
      (l.foldl (procesa_cuerpo g r) st).has_conj = true := by
  intro l
  induction l with
  | nil => intro st h; exact h
  | cons e es ih =>
    intro st h
    simp only [List.foldl_cons]
    exact ih _ (procesa_conj_mono g r st e h)

theorem foldl_procesa_conj (g : ℚ) (r : List String) :
    ∀ (l : List (String × ℚ)) (st : Estado),
      (∃ e ∈ l, (mejor_aspecto g e.2).1 = "conjuncion") →
      (l.foldl (procesa_cuerpo g r) st).has_conj = true := by
  intro l
  induction l with
  | nil => intro st h; simp at h
  | cons x xs ih =>
    intro st h
    simp only [List.foldl_cons]
    rcases h with ⟨e, he, hconj⟩
    rcases List.mem_cons.mp he with rfl | hmem
    · exact foldl_procesa_conj_mono g r xs _ (procesa_sets_conj g r st e hconj)
    · exact ih _ ⟨e, hmem, hconj⟩

theorem foldl_procesa_conj_imp_aspect (g : ℚ) (r : List String) :
    ∀ (l : List (String × ℚ)) (st : Estado),
      (st.has_conj = true → st.has_aspect = true) →
      (l.foldl (procesa_cuerpo g r) st).has_conj = true →
      (l.foldl (procesa_cuerpo g r) st).has_aspect = true := by
  intro l
  induction l with
  | nil => intro st h; exact h
  | cons e es ih =>
    intro st h
    simp only [List.foldl_cons]
    exact ih _ (procesa_conj_imp_aspect g r st e h)

theorem foldl_procesa_id (g : ℚ) (r : List String) :
    ∀ (l : List (String × ℚ)) (st : Estado),
      (∀ e ∈ l, (mejor_aspecto g e.2).1 = "") →
      l.foldl (procesa_cuerpo g r) st = st := by
  intro l
  induction l with
  | nil => intro st _; rfl
  | cons e es ih =>
    intro st h
    simp only [List.foldl_cons]
    rw [procesa_id_of_empty g r st e (h e (List.mem_cons_self e es))]
    exact ih st fun x hx => h x (List.mem_cons_of_mem e hx)

/-! ### Helper lemmas: the term normalizer -/

/-- The per-character effect of the whole normalization pipeline. -/
def normChar (c : Char) : List Char :=
  (((nfkd (repl_nc c)).filter (fun d => !combining d)).map pyUpper).filter allowed

theorem etapas_eq (l : List Char) :
    (((concatMapC nfkd (l.map repl_nc)).filter (fun c => !combining c)).map pyUpper).filter
        allowed = concatMapC normChar l := by
  induction l with
  | nil => rfl
  | cons c l ih =>
    simp only [List.map_cons, concatMapC, List.filter_append, List.map_append]
    rw [ih]
    simp only [normChar]

theorem normaliza_eq (s : String) :
    normaliza_termino s = String.mk (concatMapC normChar s.data) :=
  congrArg String.mk (etapas_eq s.data)

theorem mem_concatMapC {f : Char → List Char} {d : Char} :
    ∀ {l : List Char}, d ∈ concatMapC f l → ∃ c ∈ l, d ∈ f c := by
  intro l
  induction l with
  | nil => intro h; simp [concatMapC] at h
  | cons c cs ih =>
    intro h
    rcases List.mem_append.mp h with h1 | h2
    · exact ⟨c, List.mem_cons_self c cs, h1⟩
    · rcases ih h2 with ⟨x, hx, hdx⟩
      exact ⟨x, List.mem_cons_of_mem c hx, hdx⟩

theorem concatMapC_id_of {f : Char → List Char} :
    ∀ l : List Char, (∀ d ∈ l, f d = [d]) → concatMapC f l = l := by
  intro l
  induction l with
  | nil => intro _; rfl
  | cons c cs ih =>
    intro h
    simp only [concatMapC, h c (List.mem_cons_self c cs), List.cons_append, List.nil_append]
    rw [ih fun d hd => h d (List.mem_cons_of_mem c hd)]

theorem nfkd_no_special : ∀ c d : Char, d ∈ nfkd c →
    d ≠ 'ñ' ∧ d ≠ 'Ñ' ∧ d ≠ 'ç' ∧ d ≠ 'Ç' := by
  intro c d hd
  unfold nfkd at hd
  cases hb : busca c NFKD_TABLE with
  | none =>
    rw [hb] at hd
    simp only [Option.getD_none, List.mem_singleton] at hd
    subst hd
    refine ⟨?_, ?_, ?_, ?_⟩ <;>
      · rintro rfl
        exact absurd hb (by decide)
  | some v =>
    rw [hb] at hd
    simp only [Option.getD_some] at hd
    have hmem : (c, v) ∈ NFKD_TABLE := mem_of_busca hb
    have hall : ∀ p ∈ NFKD_TABLE, ∀ x ∈ p.2,
        x ≠ 'ñ' ∧ x ≠ 'Ñ' ∧ x ≠ 'ç' ∧ x ≠ 'Ç' := by decide
    exact hall (c, v) hmem d hd

theorem pyUpper_eq_enye {d : Char} (h : pyUpper d = 'Ñ') : d = 'ñ' ∨ d = 'Ñ' := by
  unfold pyUpper at h
  cases hb : busca d UPPER_TABLE with
  | none =>
    rw [hb] at h
    simp only [Option.getD_none] at h
    right
    exact h
  | some u =>
    rw [hb] at h
    simp only [Option.getD_some] at h
    have hmem : (d, u) ∈ UPPER_TABLE := mem_of_busca hb
    have hall : ∀ p ∈ UPPER_TABLE, p.2 = 'Ñ' → p.1 = 'ñ' := by decide
    left
    exact hall (d, u) hmem h

theorem pyUpper_eq_cedilla {d : Char} (h : pyUpper d = 'Ç') : d = 'ç' ∨ d = 'Ç' := by
  unfold pyUpper at h
  cases hb : busca d UPPER_TABLE with
  | none =>
    rw [hb] at h
    simp only [Option.getD_none] at h
    right
    exact h
  | some u =>
    rw [hb] at h
    simp only [Option.getD_some] at h
    have hmem : (d, u) ∈ UPPER_TABLE := mem_of_busca hb
    have hall : ∀ p ∈ UPPER_TABLE, p.2 = 'Ç' → p.1 = 'ç' := by decide
    left
    exact hall (d, u) hmem h

theorem normChar_mem_basic : ∀ c d : Char, d ∈ normChar c →
    ('A' ≤ d ∧ d ≤ 'Z') ∨ ('0' ≤ d ∧ d ≤ '9') := by
  intro c d hd
  unfold normChar at hd
  have hallow : allowed d = true := List.of_mem_filter hd
  have hmap : d ∈ ((nfkd (repl_nc c)).filter (fun x => !combining x)).map pyUpper :=
    List.mem_of_mem_filter hd
  rcases List.mem_map.mp hmap with ⟨e, he, hup⟩
  have henfkd : e ∈ nfkd (repl_nc c) := List.mem_of_mem_filter he
  have hespec := nfkd_no_special (repl_nc c) e henfkd
  have hprop := of_decide_eq_true hallow
  rcases hprop with h1 | h2 | h3 | h4
  · exact Or.inl h1
  · exact Or.inr h2
  · exfalso
    rw [h3] at hup
    rcases pyUpper_eq_enye hup with rfl | rfl
    · exact hespec.1 rfl
    · exact hespec.2.1 rfl
  · exfalso
    rw [h4] at hup
    rcases pyUpper_eq_cedilla hup with rfl | rfl
    · exact hespec.2.2.1 rfl
    · exact hespec.2.2.2 rfl

theorem normChar_fixed : ∀ d : Char, ('A' ≤ d ∧ d ≤ 'Z') ∨ ('0' ≤ d ∧ d ≤ '9') →
    normChar d = [d] := by
  intro d h
  have hrepl : repl_nc d = d := by
    unfold repl_nc
    rw [if_neg, if_neg]
    · rintro rfl; revert h; decide
    · rintro rfl; revert h; decide
  have hnf : busca d NFKD_TABLE = none := by
    apply busca_eq_none
    intro p hp hpd
    have : ∀ p ∈ NFKD_TABLE, ¬(('A' ≤ p.1 ∧ p.1 ≤ 'Z') ∨ ('0' ≤ p.1 ∧ p.1 ≤ '9')) := by decide
    exact this p hp (hpd ▸ h)
  have hcomb : combining d = false := by
    apply decide_eq_false
    intro hm
    have : ∀ m ∈ COMBINING_MARKS, ¬(('A' ≤ m ∧ m ≤ 'Z') ∨ ('0' ≤ m ∧ m ≤ '9')) := by decide
    exact this d hm h
  have hup : busca d UPPER_TABLE = none := by
    apply busca_eq_none
    intro p hp hpd
    have : ∀ p ∈ UPPER_TABLE, ¬(('A' ≤ p.1 ∧ p.1 ≤ 'Z') ∨ ('0' ≤ p.1 ∧ p.1 ≤ '9')) := by decide
    exact this p hp (hpd ▸ h)
  have hallow : allowed d = true := by
    apply decide_eq_true
    rcases h with h1 | h2
    · exact Or.inl h1
    · exact Or.inr (Or.inl h2)
  unfold normChar nfkd pyUpper
  rw [hrepl, hnf]
  simp only [Option.getD_none, List.filter_cons, List.filter_nil, hcomb, Bool.not_false,
    if_true, List.map_cons, List.map_nil, hup, hallow]

theorem normaliza_idem (s : String) :
    normaliza_termino (normaliza_termino s) = normaliza_termino s := by
  rw [normaliza_eq s, normaliza_eq (String.mk (concatMapC normChar s.data))]
  apply congrArg String.mk
  show concatMapC normChar (concatMapC normChar s.data) = concatMapC normChar s.data
  apply concatMapC_id_of
  intro d hd
  rcases mem_concatMapC hd with ⟨c, _, hdc⟩
  exact normChar_fixed d (normChar_mem_basic c d hdc)

/-! ### Helper lemmas: concrete evaluations -/

theorem mejor_49_49 : mejor_aspecto 49 49 = ("conjuncion", 0, 4) := by
  norm_num [mejor_aspecto, ASPECTOS, paso, atenuado_por_orbe, dist_angular, qmod]

theorem mejor_49_52 : mejor_aspecto 49 52 = ("", 999, 0) := by
  norm_num [mejor_aspecto, ASPECTOS, paso, atenuado_por_orbe, dist_angular, qmod]

theorem grado_amor : grado_del_termino "AMOR" = 49 := by
  norm_num [grado_del_termino, grado_astrogematrico]
  rfl

theorem pyround_cero (n : ℕ) : pyround 0 n = 0 := by
  unfold pyround rhe
  rw [zero_mul, Int.fract_zero, if_neg (by norm_num)]
  norm_num

theorem pyround_49_2 : pyround 49 2 = 49 := by norm_num [pyround, rhe, Int.fract]

theorem pyround_299_3 : pyround (299/100) 3 = 299/100 := by norm_num [pyround, rhe, Int.fract]

theorem pyround_299_2 : pyround (299/100) 2 = 299/100 := by norm_num [pyround, rhe, Int.fract]

theorem pyround_75_3 : pyround (7/5) 3 = 7/5 := by norm_num [pyround, rhe, Int.fract]

theorem regentes_sin_asc (pos : List (String × ℚ)) (h : ∀ e ∈ pos, e.1 ≠ "Asc") :
    regentes_clasicos (lon_to_sign ((busca "Asc" pos).getD 0)) = ["Mars"] := by
  rw [busca_eq_none "Asc" pos h]
  norm_num [lon_to_sign, qmod, regentes_clasicos]

theorem estado_amor_sun49 :
    recorre_cuerpos 49 ["Mars"] [("Sun", 49)] =
      ⟨[⟨"Sun", false, "conjuncion", 0, 299/100, 7/5, 49⟩], 299/100, 7/5, true, true⟩ := by
  simp only [recorre_cuerpos, List.foldl_cons, List.foldl_nil]
  simp only [procesa_cuerpo, mejor_49_49]
  norm_num +decide [atenuado_por_orbe, orbe_de, busca, ASPECTOS, ANGULOS, LUMINARIES,
    mult_importancia, peso_planeta, PESO_PLANETA, RULER_MULT, LUM_IMPACT_MULT,
    impacto_de, IMPACT_WEIGHTS, calidad_q, valencia_de, VALENCE_WEIGHTS,
    planet_valence, PLANET_VALENCE, estado_inicial, pyround_cero, pyround_49_2,
    pyround_299_3, pyround_75_3, show |(299:ℚ)/100| = 299/100 by norm_num]

theorem estado_amor_sun52 :
    recorre_cuerpos 49 ["Mars"] [("Sun", 52)] = estado_inicial := by
  simp only [recorre_cuerpos, List.foldl_cons, List.foldl_nil]
  exact procesa_id_of_empty 49 ["Mars"] estado_inicial ("Sun", 52) (by rw [mejor_49_52])

/-! ### Claim theorems -/

/-- Claim C4: for every integer `v` the Degree Mapper returns exactly
`(360 - (v mod 360)) mod 360`, the result is always in `[0, 360)`, and for
every integer `k`, `grado_astrogematrico (v + 360 * k) = grado_astrogematrico v`. -/
theorem C4_grado_formula_rango_periodico (v k : ℤ) :
    grado_astrogematrico v = (((360 - v % 360) % 360 : ℤ) : ℚ) ∧
    0 ≤ grado_astrogematrico v ∧ grado_astrogematrico v < 360 ∧
    grado_astrogematrico (v + 360 * k) = grado_astrogematrico v := by
  refine ⟨rfl, ?_, ?_, ?_⟩
  · unfold grado_astrogematrico
    exact_mod_cast Int.emod_nonneg _ (by norm_num : (360 : ℤ) ≠ 0)
  · unfold grado_astrogematrico
    exact_mod_cast Int.emod_lt_of_pos _ (by norm_num : (0 : ℤ) < 360)
  · unfold grado_astrogematrico
    rw [Int.add_mul_emod_self_left]

/-- Claim C5: term normalization is idempotent — for every input string `s`,
`normaliza_termino (normaliza_termino s) = normaliza_termino s`. -/
theorem C5_normaliza_idempotente (s : String) :
    normaliza_termino (normaliza_termino s) = normaliza_termino s :=
  normaliza_idem s

/-- Claim C6: the Aspect Matcher is symmetric in its two arguments — for all
degrees `a b`, `mejor_aspecto a b = mejor_aspecto b a` (same kind, same delta,
same weight). -/
theorem C6_mejor_aspecto_simetrico (a b : ℚ) : mejor_aspecto a b = mejor_aspecto b a := by
  unfold mejor_aspecto
  rw [dist_angular_comm]

/-- Claim C2 (code bug): the Term Normalizer does NOT retain lowercase ñ/ç as
Ñ/Ç — NFKD decomposes the uppercased Ñ/Ç into base letter plus combining
mark, the mark is stripped, and the output is plain N/C, contradicting the
evident intent of the `replace` step, the `[^A-Z0-9ÑÇ]` filter and the
gematria table's Ñ/Ç entries. -/
theorem C2_enye_cedilla_colapsan :
    normaliza_termino "ñ" = "N" ∧ normaliza_termino "ç" = "C" ∧
    normaliza_termino "ñ" ≠ "Ñ" ∧ normaliza_termino "ç" ≠ "Ç" := by
  refine ⟨rfl, rfl, ?_, ?_⟩ <;> decide

/-- Claim C8: for every term and chart-position mapping the returned
Importance is nonnegative and the returned Quality lies in `[-10, 10]`. -/
theorem C8_cotas_calidad_importancia (term : String) (pos : List (String × ℚ)) :
    0 ≤ (evalua_termino_con_carta term pos).importancia ∧
    -10 ≤ (evalua_termino_con_carta term pos).calidad ∧
    (evalua_termino_con_carta term pos).calidad ≤ 10 := by
  refine ⟨?_, ?_, ?_⟩
  · show 0 ≤ pyround (importancia_final (recorre_cuerpos (grado_del_termino term)
      (regentes_clasicos (lon_to_sign ((busca "Asc" pos).getD 0))) pos)) 2
    apply pyround_nonneg
    unfold importancia_final
    split_ifs with h1 h2
    · exact le_trans
        (foldl_procesa_import_nonneg _ _ pos estado_inicial (le_refl 0)) (le_max_left _ _)
    · exact foldl_procesa_import_nonneg _ _ pos estado_inicial (le_refl 0)
    · exact le_refl 0
  · show -10 ≤ pyround (calidad_final (recorre_cuerpos (grado_del_termino term)
      (regentes_clasicos (lon_to_sign ((busca "Asc" pos).getD 0))) pos)) 1
    apply pyround1_ge_neg_ten
    unfold calidad_final
    split_ifs with h1
    · exact (clamp_mem (by norm_num)).1
    · norm_num
  · show pyround (calidad_final (recorre_cuerpos (grado_del_termino term)
      (regentes_clasicos (lon_to_sign ((busca "Asc" pos).getD 0))) pos)) 1 ≤ 10
    apply pyround1_le_ten
    unfold calidad_final
    split_ifs with h1
    · exact (clamp_mem (by norm_num)).2
    · norm_num

/-- Claim C7: whenever some chart body is matched as a conjunction with the
term's degree, the returned Importance is at least 2.1 (the conjunction floor
is applied before the label threshold). -/
theorem C7_conjuncion_importancia (term : String) (pos : List (String × ℚ))
    (h : ∃ e ∈ pos, (mejor_aspecto (grado_del_termino term) e.2).1 = "conjuncion") :
    21/10 ≤ (evalua_termino_con_carta term pos).importancia := by
  have hconj : (recorre_cuerpos (grado_del_termino term)
      (regentes_clasicos (lon_to_sign ((busca "Asc" pos).getD 0))) pos).has_conj = true :=
    foldl_procesa_conj _ _ pos estado_inicial h
  have hasp : (recorre_cuerpos (grado_del_termino term)
      (regentes_clasicos (lon_to_sign ((busca "Asc" pos).getD 0))) pos).has_aspect = true :=
    foldl_procesa_conj_imp_aspect _ _ pos estado_inicial (fun hx => hx) hconj
  show 21/10 ≤ pyround (importancia_final (recorre_cuerpos (grado_del_termino term)
    (regentes_clasicos (lon_to_sign ((busca "Asc" pos).getD 0))) pos)) 2
  apply pyround2_ge_floor
  unfold importancia_final
  rw [if_pos hasp, if_pos hconj]
  exact le_max_right _ _

/-- Witness for C7 at the concrete chart `{Sun: 49}` and term "AMOR". -/
theorem C7_conjuncion_importancia_witness :
    (∃ e ∈ [(("Sun" : String), (49 : ℚ))],
      (mejor_aspecto (grado_del_termino "AMOR") e.2).1 = "conjuncion") ∧
    21/10 ≤ (evalua_termino_con_carta "AMOR" [("Sun", 49)]).importancia := by
  have h : ∃ e ∈ [(("Sun" : String), (49 : ℚ))],
      (mejor_aspecto (grado_del_termino "AMOR") e.2).1 = "conjuncion" := by
    refine ⟨("Sun", 49), List.mem_singleton.mpr rfl, ?_⟩
    show (mejor_aspecto (grado_del_termino "AMOR") 49).1 = "conjuncion"
    rw [grado_amor, mejor_49_49]
  exact ⟨h, C7_conjuncion_importancia "AMOR" [("Sun", 49)] h⟩

/-- Claim C10: the Aspect Matcher returns a named aspect iff some kind's
delta is strictly inside its orb (a zero-weight candidate is never selected),
and whenever a named aspect is returned the recomputed orb factor is strictly
positive, so the engine's `orbFactor <= 0` skip branch is unreachable. -/
theorem C10_aspecto_estricto (a b : ℚ) :
    (((mejor_aspecto a b).1 ≠ "") ↔
      ∃ p ∈ ASPECTOS, |dist_angular a b - p.2.angulo| < p.2.orbe) ∧
    ((mejor_aspecto a b).1 ≠ "" →
      0 < atenuado_por_orbe (mejor_aspecto a b).2.1 (orbe_de (mejor_aspecto a b).1)) := by
  refine ⟨⟨?_, ?_⟩, mejor_aspecto_orb_factor_pos a b⟩
  · intro h
    rcases mejor_aspecto_good a b h with ⟨p, hp, _, hdelta, hlt, _⟩
    exact ⟨p, hp, hdelta ▸ hlt⟩
  · rintro ⟨p, hp, hd⟩
    exact mejor_aspecto_ne_of a b p hp hd

/-- Witness for C10 at the concrete pair `(0, 1)`. -/
theorem C10_aspecto_estricto_witness :
    (((mejor_aspecto 0 1).1 ≠ "") ↔
      ∃ p ∈ ASPECTOS, |dist_angular 0 1 - p.2.angulo| < p.2.orbe) ∧
    ((mejor_aspecto 0 1).1 ≠ "" →
      0 < atenuado_por_orbe (mejor_aspecto 0 1).2.1 (orbe_de (mejor_aspecto 0 1).1)) :=
  C10_aspecto_estricto 0 1

/-- Claim C1 (counterexample): with term degree 49 and the Sun at 52° the
conjunction is exactly at its 3° orb boundary and no kind is strictly inside
its orb, yet the matcher returns NO aspect (empty kind) and the engine's
"no aspects" zero-labeling branch DOES trigger — the pair is not recognized
as "has an aspect". -/
theorem C1_contraejemplo_borde :
    dist_angular 49 52 = 3 ∧ (mejor_aspecto 49 52).1 = "" ∧
    (evalua_termino_con_carta "AMOR" [("Sun", 52)]).etq_importancia =
      "impacto NO importante (sin aspectos)" ∧
    (evalua_termino_con_carta "AMOR" [("Sun", 52)]).importancia = 0 := by
  have hA : ∀ e ∈ [(("Sun" : String), (52 : ℚ))], e.1 ≠ "Asc" := by
    intro e he
    rw [List.mem_singleton] at he
    subst he
    decide
  refine ⟨?_, ?_, ?_, ?_⟩
  · norm_num [dist_angular, qmod]
  · rw [mejor_49_52]
  · show etq_importancia_final (recorre_cuerpos (grado_del_termino "AMOR")
      (regentes_clasicos (lon_to_sign ((busca "Asc"
        [(("Sun" : String), (52 : ℚ))]).getD 0))) [("Sun", 52)]) = _
    rw [grado_amor, regentes_sin_asc _ hA, estado_amor_sun52]
    rfl
  · show pyround (importancia_final (recorre_cuerpos (grado_del_termino "AMOR")
      (regentes_clasicos (lon_to_sign ((busca "Asc"
        [(("Sun" : String), (52 : ℚ))]).getD 0))) [("Sun", 52)])) 2 = 0
    rw [grado_amor, regentes_sin_asc _ hA, estado_amor_sun52]
    rw [show importancia_final estado_inicial = 0 from rfl]
    exact pyround_cero 2

/-- Claim C1 (amended): when no aspect kind is strictly inside its orb
(in particular when some kind sits exactly at its orb boundary), the matcher
returns no match at all (`('', 999, 0)`); consequently a chart whose every
body is in that situation w.r.t. the term degree yields Importance 0,
Quality 0, the "no aspects" label, and an empty hit list. -/
theorem C1_borde_enmendado :
    (∀ a b : ℚ, (∀ p ∈ ASPECTOS, p.2.orbe ≤ |dist_angular a b - p.2.angulo|) →
      mejor_aspecto a b = ("", 999, 0)) ∧
    (∀ (term : String) (pos : List (String × ℚ)),
      (∀ e ∈ pos, ∀ p ∈ ASPECTOS,
        p.2.orbe ≤ |dist_angular (grado_del_termino term) e.2 - p.2.angulo|) →
      (evalua_termino_con_carta term pos).importancia = 0 ∧
      (evalua_termino_con_carta term pos).calidad = 0 ∧
      (evalua_termino_con_carta term pos).etq_importancia =
        "impacto NO importante (sin aspectos)" ∧
      (evalua_termino_con_carta term pos).hits = []) := by
  constructor
  · exact mejor_aspecto_empty_of
  · intro term pos h
    have hid : recorre_cuerpos (grado_del_termino term)
        (regentes_clasicos (lon_to_sign ((busca "Asc" pos).getD 0))) pos = estado_inicial :=
      foldl_procesa_id _ _ pos estado_inicial fun e he => by
        rw [mejor_aspecto_empty_of (grado_del_termino term) e.2 (h e he)]
    refine ⟨?_, ?_, ?_, ?_⟩
    · show pyround (importancia_final (recorre_cuerpos (grado_del_termino term)
        (regentes_clasicos (lon_to_sign ((busca "Asc" pos).getD 0))) pos)) 2 = 0
      rw [hid, show importancia_final estado_inicial = 0 from rfl]
      exact pyround_cero 2
    · show pyround (calidad_final (recorre_cuerpos (grado_del_termino term)
        (regentes_clasicos (lon_to_sign ((busca "Asc" pos).getD 0))) pos)) 1 = 0
      rw [hid, show calidad_final estado_inicial = 0 from rfl]
      exact pyround_cero 1
    · show etq_importancia_final (recorre_cuerpos (grado_del_termino term)
        (regentes_clasicos (lon_to_sign ((busca "Asc" pos).getD 0))) pos) = _
      rw [hid]
      rfl
    · show (ordena_hits (recorre_cuerpos (grado_del_termino term)
        (regentes_clasicos (lon_to_sign ((busca "Asc" pos).getD 0))) pos).detalles).take 8 = []
      rw [hid]
      rfl

/-- Witness for the amended C1 at the boundary pair `(49, 52)` and the
single-body chart `{Sun: 52}` with term "AMOR" (degree 49). -/
theorem C1_borde_enmendado_witness :
    mejor_aspecto 49 52 = ("", 999, 0) ∧
    (evalua_termino_con_carta "AMOR" [("Sun", 52)]).importancia = 0 :=
  ⟨C1_borde_enmendado.1 49 52 (by
      intro p hp
      fin_cases hp <;> norm_num [dist_angular, qmod]),
   (C1_borde_enmendado.2 "AMOR" [("Sun", 52)] (by
      intro e he
      fin_cases he
      intro p hp
      rw [grado_amor]
      fin_cases hp <;> norm_num [dist_angular, qmod])).1⟩

/-- Claim C3 (counterexample): on a chart with no 'Asc' key the returned
ruler list is `['Mars']` (the Ascendant longitude defaults to 0.0, i.e. the
sign Aries), not the empty set. -/
theorem C3_contraejemplo_sin_asc :
    (evalua_termino_con_carta "AMOR" []).regentes_asc = ["Mars"] ∧
    (evalua_termino_con_carta "AMOR" []).regentes_asc ≠ [] := by
  have h : (evalua_termino_con_carta "AMOR" []).regentes_asc = ["Mars"] := by
    show regentes_clasicos (lon_to_sign
      ((busca "Asc" ([] : List (String × ℚ))).getD 0)) = ["Mars"]
    exact regentes_sin_asc [] fun e he => absurd he (List.not_mem_nil e)
  refine ⟨h, ?_⟩
  rw [h]
  decide

/-- Claim C3 (amended): for every chart-position mapping with no 'Asc' key
the Ascendant longitude defaults to 0.0, so the rulership lookup yields the
Aries ruler list `['Mars']`, and no error is raised (the function is total). -/
theorem C3_sin_asc_enmendado (term : String) (pos : List (String × ℚ))
    (h : ∀ e ∈ pos, e.1 ≠ "Asc") :
    (evalua_termino_con_carta term pos).regentes_asc = ["Mars"] := by
  show regentes_clasicos (lon_to_sign ((busca "Asc" pos).getD 0)) = ["Mars"]
  exact regentes_sin_asc pos h

/-- Witness for the amended C3 at the empty chart. -/
theorem C3_sin_asc_enmendado_witness :
    (∀ e ∈ ([] : List (String × ℚ)), e.1 ≠ "Asc") ∧
    (evalua_termino_con_carta "AMOR" []).regentes_asc = ["Mars"] :=
  ⟨fun e he => absurd he (List.not_mem_nil e),
   C3_sin_asc_enmendado "AMOR" [] fun e he => absurd he (List.not_mem_nil e)⟩

/-- Claim C9: with the Sun at 49° and term "AMOR" (degree 49°) the match is a
conjunction with delta 0 and orb factor 1.0; the Sun's Importance
contribution is 2.6 * 1.0 * 1.0 * 1.15 = 2.99 and its Quality contribution
is 2.0 * 1.0 * 0.7 = 1.4 (no ruler multiplier applies). -/
theorem C9_escenario_sol :
    grado_del_termino "AMOR" = 49 ∧
    mejor_aspecto 49 49 = ("conjuncion", 0, 4) ∧
    atenuado_por_orbe 0 (orbe_de "conjuncion") = 1 ∧
    (evalua_termino_con_carta "AMOR" [("Sun", 49)]).hits =
      [⟨"Sun", false, "conjuncion", 0, 299/100, 7/5, 49⟩] ∧
    (evalua_termino_con_carta "AMOR" [("Sun", 49)]).importancia = 299/100 := by
  have hA : ∀ e ∈ [(("Sun" : String), (49 : ℚ))], e.1 ≠ "Asc" := by
    intro e he
    rw [List.mem_singleton] at he
    subst he
    decide
  refine ⟨grado_amor, mejor_49_49, ?_, ?_, ?_⟩
  · norm_num [atenuado_por_orbe, orbe_de, busca, ASPECTOS]
  · show (ordena_hits (recorre_cuerpos (grado_del_termino "AMOR")
      (regentes_clasicos (lon_to_sign ((busca "Asc"
        [(("Sun" : String), (49 : ℚ))]).getD 0))) [("Sun", 49)]).detalles).take 8 = _
    rw [grado_amor, regentes_sin_asc _ hA, estado_amor_sun49]
    rfl
  · show pyround (importancia_final (recorre_cuerpos (grado_del_termino "AMOR")
      (regentes_clasicos (lon_to_sign ((busca "Asc"
        [(("Sun" : String), (49 : ℚ))]).getD 0))) [("Sun", 49)])) 2 = 299/100
    rw [grado_amor, regentes_sin_asc _ hA, estado_amor_sun49]
    rw [show importancia_final ⟨[⟨"Sun", false, "conjuncion", 0, 299/100, 7/5, 49⟩],
      299/100, 7/5, true, true⟩ = max (299/100) (21/10) from rfl]
    rw [max_eq_left (by norm_num)]
    exact pyround_299_2
